import Mathlib

/-!
Shallow embedding of the silver-prices aggregation service.

Source files embedded here:
* `src/unnamed/part_000` — the aggregator endpoint: three fetchers
  (`fetchSGE`, `fetchCOMEX`, `fetchFX`) joined with `Promise.allSettled`
  and a result-assembly block (`handleCycle` below).
* `src/api/shanghai.js` — the standalone sequential endpoint
  (`shanghaiHandler` below).

JavaScript numbers are modelled as `JSNum` (a rational or NaN); network
responses are modelled as explicit structures carrying the HTTP success
flag, the status code, and the already-parsed payload fields the code
reads.  `parseFloat` results on table cells appear as `JSNum` fields of
`SGERow`.  Rounding via `parseFloat(x.toFixed(d))` is modelled exactly on
rationals by `roundTo` (round to `d` decimals, ties towards +infinity, as
ECMAScript `toFixed` prescribes).
-/

set_option autoImplicit false

namespace SilverPrices

/-- A JavaScript number: either NaN or a (finite) rational value. -/
inductive JSNum where
  | nan : JSNum
  | num : ℚ → JSNum
  deriving DecidableEq, Repr

/-- JS truthiness of a number: `0` and `NaN` are falsy. -/
def JSNum.truthy : JSNum → Bool
  | .nan => false
  | .num v => v != 0

/-- Numeric value of a `JSNum` (only meaningful when it is `num`). -/
def JSNum.toQ : JSNum → ℚ
  | .nan => 0
  | .num v => v

/-- The JS expression `x || null`: keep the value when truthy, else null. -/
def JSNum.orNull : JSNum → Option ℚ
  | .nan => none
  | .num v => if v = 0 then none else some v

/-- `parseFloat(x.toFixed(d))`: round to `d` decimal places, ties towards
`+∞` (ECMAScript `toFixed` picks the larger candidate on a tie). -/
def roundTo (d : ℕ) (x : ℚ) : ℚ :=
  (⌊x * 10 ^ d + 1 / 2⌋ : ℚ) / 10 ^ d

/-- `const TROY_OZ_PER_KG = 32.1507465686` (part_000 line 3). -/
def TROY_OZ_PER_KG : ℚ := 321507465686 / 10 ^ 10

/-- Outcome of one adapter call: a validated value or a thrown error
message. -/
inductive FetchOutcome (α : Type) where
  | ok (value : α)
  | err (msg : String)
  deriving DecidableEq, Repr

/-! ## SGE table rows and the aggregator's SGE adapter (part_000 16–51) -/

/-- One `<tr>` of the scraped SGE table, as the code reads it: the number
of `<td>` cells, the trimmed text of cell 0, and the `parseFloat` results
of cells 1–4 (cell 4 is only read when the row has at least 5 cells). -/
structure SGERow where
  nCells : ℕ
  variety : String
  latest : JSNum
  high : JSNum
  low : JSNum
  openCell : JSNum
  deriving DecidableEq, Repr

/-- The row filter of both scrapers: at least 4 cells and first-cell text
exactly `Ag(T+D)`. -/
def rowMatches (row : SGERow) : Bool :=
  4 ≤ row.nCells && row.variety == "Ag(T+D)"

/-- The guard `latest && latest > 0` of part_000 line 42. -/
def latestGuard : JSNum → Bool
  | .nan => false
  | .num v => (v != 0) && decide (0 < v)

/-- The value `{ latest, high, low, open: open || null }` kept by
`fetchSGE`. -/
structure SGEQuote where
  latest : ℚ
  high : JSNum
  low : JSNum
  openV : Option ℚ
  deriving DecidableEq, Repr

/-- The object built from a matching row (part_000 lines 38–43):
`open` is `parseFloat(cells[4])` when the row has ≥ 5 cells, else null;
it is then coalesced by `open || null`. -/
def rowQuote (row : SGERow) : SGEQuote :=
  { latest := row.latest.toQ
    high := row.high
    low := row.low
    openV := if 5 ≤ row.nCells then row.openCell.orNull else none }

/-- Body of the `$('table tr').each` callback of part_000 (lines 33–47):
overwrite `result` only when the row matches and its latest value passes
`latest && latest > 0`. -/
def scanStep (acc : Option SGEQuote) (row : SGERow) : Option SGEQuote :=
  if rowMatches row then
    if latestGuard row.latest then some (rowQuote row) else acc
  else acc

/-- The whole row scan of part_000 `fetchSGE`, starting from
`result = null`. -/
def scanRows (rows : List SGERow) : Option SGEQuote :=
  rows.foldl scanStep none

/-- The SGE HTTP response as `fetchSGE` consumes it. -/
structure SGEResponse where
  ok : Bool
  status : ℕ
  rows : List SGERow
  deriving DecidableEq, Repr

/-- `fetchSGE` of part_000 (lines 16–51). -/
def fetchSGE (resp : SGEResponse) : FetchOutcome SGEQuote :=
  if !resp.ok then .err ("SGE HTTP " ++ toString resp.status)
  else
    match scanRows resp.rows with
    | some q => .ok q
    | none => .err "Ag(T+D) not found or market closed"

/-! ## The COMEX adapter (part_000 53–66) -/

/-- The fields `fetchCOMEX` reads from `data.items[0]`; `none` models an
absent field. -/
structure COMEXItem where
  xagPrice : Option JSNum
  chgXag : Option JSNum
  pcXag : Option JSNum
  xagClose : Option JSNum
  deriving DecidableEq, Repr

/-- The COMEX JSON response: `firstItem` models
`data.items && data.items[0]` and `date` models `data.date`. -/
structure COMEXResponse where
  ok : Bool
  status : ℕ
  firstItem : Option COMEXItem
  date : Option String
  deriving DecidableEq, Repr

/-- The value returned by `fetchCOMEX`. -/
structure COMEXQuote where
  price : ℚ
  change : Option JSNum
  changePercent : Option JSNum
  prevClose : Option JSNum
  timestamp : String
  deriving DecidableEq, Repr

/-- JS truthiness of an optional field holding a number. -/
def jsFieldTruthy : Option JSNum → Bool
  | some (.num v) => v != 0
  | _ => false

/-- The JS expression `s || fallback` on an optional string (the empty
string is falsy). -/
def jsStringOr (s : Option String) (fallback : String) : String :=
  match s with
  | some v => if v = "" then fallback else v
  | none => fallback

/-- `fetchCOMEX` of part_000 (lines 53–66); `now` stands for
`new Date().toISOString()`. -/
def fetchCOMEX (resp : COMEXResponse) (now : String) : FetchOutcome COMEXQuote :=
  if !resp.ok then .err ("COMEX HTTP " ++ toString resp.status)
  else
    match resp.firstItem with
    | none => .err "Silver price not found in COMEX data"
    | some item =>
      if !jsFieldTruthy item.xagPrice then .err "Silver price not found in COMEX data"
      else
        .ok { price := (item.xagPrice.getD .nan).toQ
              change := item.chgXag
              changePercent := item.pcXag
              prevClose := item.xagClose
              timestamp := jsStringOr resp.date now }

/-! ## The FX adapter (part_000 68–75) -/

/-- The FX JSON response: `ratesCNY` models `data.rates && data.rates.CNY`
(`none` when the `rates` object or the `CNY` field is absent). -/
structure FXResponse where
  ok : Bool
  status : ℕ
  ratesCNY : Option JSNum
  deriving DecidableEq, Repr

/-- `fetchFX` of part_000 (lines 68–75): `if (!cny) throw` rejects any
falsy value (absent field, NaN, or 0); every truthy number is returned. -/
def fetchFX (resp : FXResponse) : FetchOutcome ℚ :=
  if !resp.ok then .err ("FX HTTP " ++ toString resp.status)
  else
    match resp.ratesCNY with
    | some (.num v) => if v = 0 then .err "CNY rate not found" else .ok v
    | _ => .err "CNY rate not found"

/-! ## The aggregator endpoint (part_000 77–144) -/

/-- A settled promise, as delivered by `Promise.allSettled`: fulfilled
with a value, or rejected with `reason?.message` (`none` when the reason
has no message). -/
inductive Settled (α : Type) where
  | fulfilled (value : α)
  | rejected (reason : Option String)
  deriving DecidableEq, Repr

/-- `status === 'fulfilled'`. -/
def Settled.isFulfilled {α : Type} : Settled α → Bool
  | .fulfilled _ => true
  | .rejected _ => false

/-- `reason?.message || 'Unknown error'` (the empty string is falsy). -/
def rejMsg : Option String → String
  | some s => if s = "" then "Unknown error" else s
  | none => "Unknown error"

/-- One entry of `result.errors`. -/
structure ErrorEntry where
  source : String
  message : String
  deriving DecidableEq, Repr

/-- `result.sge` when populated (part_000 lines 116–122). -/
structure SGEOut where
  usd_per_oz : ℚ
  rmb_per_kg : ℚ
  rmb_high : JSNum
  rmb_low : JSNum
  rmb_open : Option ℚ
  deriving DecidableEq, Repr

/-- `result.fx` when populated: `{ usd_cny: fxResult.value }`. -/
structure FXOut where
  usd_cny : ℚ
  deriving DecidableEq, Repr

/-- `result.premium` when populated (part_000 lines 128–131). -/
structure PremiumOut where
  usd : ℚ
  percent : ℚ
  deriving DecidableEq, Repr

/-- The composite payload of the aggregator endpoint. -/
structure CompositeResult where
  timestamp : String
  sge : Option SGEOut
  comex : Option COMEXQuote
  fx : Option FXOut
  premium : Option PremiumOut
  errors : List ErrorEntry
  deriving DecidableEq, Repr

/-- The result-assembly block of the aggregator (part_000 lines 82–143),
as a pure function of the three settled outcomes delivered by
`Promise.allSettled` and of the current time.  Returns the composite
payload together with the HTTP status
(`result.comex || result.sge ? 200 : 502`).  The code pushes the COMEX
error first (lines 99–103), then the FX error (lines 106–110), then the
SGE branch (lines 113–137). -/
def handleCycle (now : String) (sgeResult : Settled SGEQuote)
    (comexResult : Settled COMEXQuote) (fxResult : Settled ℚ) :
    CompositeResult × ℕ :=
  let comexField : Option COMEXQuote :=
    match comexResult with
    | .fulfilled v => some v
    | .rejected _ => none
  let comexErrs : List ErrorEntry :=
    match comexResult with
    | .fulfilled _ => []
    | .rejected r => [⟨"comex", rejMsg r⟩]
  let fxField : Option FXOut :=
    match fxResult with
    | .fulfilled v => some ⟨v⟩
    | .rejected _ => none
  let fxErrs : List ErrorEntry :=
    match fxResult with
    | .fulfilled _ => []
    | .rejected r => [⟨"fx", rejMsg r⟩]
  match sgeResult, fxField with
  | .fulfilled sge, some fx =>
    let usdPerOz : ℚ := sge.latest / (TROY_OZ_PER_KG * fx.usd_cny)
    let sgeOut : SGEOut :=
      { usd_per_oz := roundTo 4 usdPerOz
        rmb_per_kg := sge.latest
        rmb_high := sge.high
        rmb_low := sge.low
        rmb_open := sge.openV }
    let premium : Option PremiumOut :=
      match comexField with
      | some c =>
        some { usd := roundTo 4 (sgeOut.usd_per_oz - c.price)
               percent := roundTo 2 ((sgeOut.usd_per_oz - c.price) / c.price * 100) }
      | none => none
    ({ timestamp := now, sge := some sgeOut, comex := comexField
       fx := fxField, premium := premium, errors := comexErrs ++ fxErrs }, 200)
  | .rejected r, _ =>
    ({ timestamp := now, sge := none, comex := comexField, fx := fxField
       premium := none
       errors := comexErrs ++ fxErrs ++ [⟨"sge", rejMsg r⟩] },
     if comexField.isSome then 200 else 502)
  | .fulfilled _, none =>
    ({ timestamp := now, sge := none, comex := comexField, fx := none
       premium := none
       errors := comexErrs ++ fxErrs ++ [⟨"sge", "Cannot convert without FX rate"⟩] },
     if comexField.isSome then 200 else 502)

/-! ## The standalone endpoint (src/api/shanghai.js) -/

/-- Which upstream requests the shanghai handler actually issues, in
order. -/
inductive FetchTag where
  | sgeFetch
  | fxFetch
  deriving DecidableEq, Repr

/-- `fxData.rates` of shanghai.js, when present. -/
structure FXRates where
  CNY : Option JSNum
  deriving DecidableEq, Repr

/-- The FX response as shanghai.js consumes it; `rates = none` models an
absent `rates` object (reading `.CNY` on it throws a TypeError that the
surrounding catch turns into a 500). -/
structure FXResponseS where
  ok : Bool
  status : ℕ
  rates : Option FXRates
  deriving DecidableEq, Repr

/-- The four `ag*` variables of shanghai.js after the table scan of one
matching row (lines 41–44): every matching row overwrites all four,
with no positivity guard. -/
structure AgVars where
  agLatest : JSNum
  agHigh : JSNum
  agLow : JSNum
  agOpen : Option ℚ
  deriving DecidableEq, Repr

/-- Body of the `each` callback of shanghai.js (lines 36–47):
`agOpen = parseFloat(cells[4]) || null`, where a 4-cell row yields
`parseFloat(undefined text) = NaN`, hence null. -/
def scanStepShanghai (acc : Option AgVars) (row : SGERow) : Option AgVars :=
  if rowMatches row then
    some { agLatest := row.latest
           agHigh := row.high
           agLow := row.low
           agOpen := if 5 ≤ row.nCells then row.openCell.orNull else none }
  else acc

/-- The whole shanghai.js row scan, starting from all-null variables. -/
def scanRowsShanghai (rows : List SGERow) : Option AgVars :=
  rows.foldl scanStepShanghai none

/-- The response body of shanghai.js: empty (pre-flight), the price
payload (lines 79–89), or the catch-block error payload (lines 95–99)
which carries only an error message, a timestamp and a fixed hint. -/
inductive ShanghaiBody where
  | empty
  | priceData (usd_per_oz rmb_per_kg : ℚ) (rmb_high rmb_low : JSNum)
      (rmb_open : Option ℚ) (usd_cny_rate : ℚ) (timestamp source note : String)
  | errorOnly (error : String) (timestamp hint : String)
  deriving DecidableEq, Repr

/-- `true` exactly on the catch-block body. -/
def ShanghaiBody.isErrorOnly : ShanghaiBody → Bool
  | .errorOnly _ _ _ => true
  | _ => false

/-- The fixed `hint` string of the shanghai.js catch block. -/
def shanghaiHint : String :=
  "SGE may be unreachable or market is closed. Cached data may still be served."

/-- The shanghai.js handler (lines 3–101) as a function of the request
method, the current time and the two upstream responses.  The second
component is the ordered list of upstream requests actually issued: the
code runs strictly sequentially inside one try/catch, so a thrown SGE
error (non-ok status, or `!agLatest || agLatest === 0`) reaches the catch
block before the FX request is ever made. -/
def shanghaiHandler (method now : String) (sgeResp : SGEResponse)
    (fxResp : FXResponseS) : (ℕ × ShanghaiBody) × List FetchTag :=
  if method = "OPTIONS" then ((200, .empty), [])
  else if !sgeResp.ok then
    ((500, .errorOnly ("SGE returned status " ++ toString sgeResp.status) now shanghaiHint),
     [.sgeFetch])
  else
    match scanRowsShanghai sgeResp.rows with
    | none =>
      ((500, .errorOnly "Ag(T+D) price not found or market closed (0.0)" now shanghaiHint),
       [.sgeFetch])
    | some vs =>
      if !vs.agLatest.truthy then
        ((500, .errorOnly "Ag(T+D) price not found or market closed (0.0)" now shanghaiHint),
         [.sgeFetch])
      else if !fxResp.ok then
        ((500, .errorOnly ("Exchange rate API returned status " ++ toString fxResp.status)
            now shanghaiHint),
         [.sgeFetch, .fxFetch])
      else
        match fxResp.rates with
        | none =>
          ((500, .errorOnly "TypeError: Cannot read properties of undefined (reading CNY)"
              now shanghaiHint),
           [.sgeFetch, .fxFetch])
        | some rates =>
          match rates.CNY with
          | some (.num v) =>
            if v = 0 then
              ((500, .errorOnly "CNY rate not found in exchange rate response" now shanghaiHint),
               [.sgeFetch, .fxFetch])
            else
              ((200, .priceData (roundTo 4 (vs.agLatest.toQ / (TROY_OZ_PER_KG * v)))
                  vs.agLatest.toQ vs.agHigh vs.agLow vs.agOpen v now
                  "Shanghai Gold Exchange - Ag(T+D) Delayed Quotes"
                  "Exchange rate is USD/CNY (onshore). Offshore CNH rate may differ slightly."),
               [.sgeFetch, .fxFetch])
          | _ =>
            ((500, .errorOnly "CNY rate not found in exchange rate response" now shanghaiHint),
             [.sgeFetch, .fxFetch])

/-- `true` when the shanghai scan left a usable latest price, i.e. the
guard `!agLatest || agLatest === 0` of line 49 does not throw. -/
def agLatestOk : Option AgVars → Bool
  | none => false
  | some vs => vs.agLatest.truthy

/-- `true` when the shanghai FX extraction throws: absent `rates` object,
absent `CNY` field, or a falsy (`0`/NaN) value. -/
def FXResponseS.cnyFalsy (resp : FXResponseS) : Bool :=
  match resp.rates with
  | none => true
  | some rates =>
    match rates.CNY with
    | some (.num v) => v == 0
    | _ => true

/-! ## Helper lemmas: component behaviour of `handleCycle` -/

/-- The error entries pushed while processing the COMEX outcome. -/
def comexErrList (c : Settled COMEXQuote) : List ErrorEntry :=
  match c with
  | .fulfilled _ => []
  | .rejected r => [⟨"comex", rejMsg r⟩]

/-- The error entries pushed while processing the FX outcome. -/
def fxErrList (f : Settled ℚ) : List ErrorEntry :=
  match f with
  | .fulfilled _ => []
  | .rejected r => [⟨"fx", rejMsg r⟩]

/-- The error entries pushed while processing the SGE outcome: one entry
when the fetch was rejected, one dependency-unmet entry when the fetch
succeeded but the FX rate is missing. -/
def sgeErrList (s : Settled SGEQuote) (f : Settled ℚ) : List ErrorEntry :=
  match s, f with
  | .fulfilled _, .fulfilled _ => []
  | .rejected r, _ => [⟨"sge", rejMsg r⟩]
  | .fulfilled _, .rejected _ => [⟨"sge", "Cannot convert without FX rate"⟩]

lemma handleCycle_comex (now : String) (s : Settled SGEQuote)
    (c : Settled COMEXQuote) (f : Settled ℚ) :
    (handleCycle now s c f).1.comex =
      (match c with | .fulfilled v => some v | .rejected _ => none) := by
  cases s <;> cases c <;> cases f <;> rfl

lemma handleCycle_fx (now : String) (s : Settled SGEQuote)
    (c : Settled COMEXQuote) (f : Settled ℚ) :
    (handleCycle now s c f).1.fx =
      (match f with | .fulfilled v => some ⟨v⟩ | .rejected _ => none) := by
  cases s <;> cases c <;> cases f <;> rfl

lemma handleCycle_sge_ff (now : String) (s : SGEQuote) (c : Settled COMEXQuote) (r : ℚ) :
    (handleCycle now (.fulfilled s) c (.fulfilled r)).1.sge =
      some ⟨roundTo 4 (s.latest / (TROY_OZ_PER_KG * r)), s.latest, s.high, s.low, s.openV⟩ := by
  cases c <;> rfl

lemma handleCycle_sge_rejected (now : String) (rr : Option String)
    (c : Settled COMEXQuote) (f : Settled ℚ) :
    (handleCycle now (.rejected rr) c f).1.sge = none := by
  cases c <;> cases f <;> rfl

lemma handleCycle_sge_noFx (now : String) (s : SGEQuote)
    (c : Settled COMEXQuote) (rr : Option String) :
    (handleCycle now (.fulfilled s) c (.rejected rr)).1.sge = none := by
  cases c <;> rfl

lemma handleCycle_premium_ff (now : String) (s : SGEQuote) (cq : COMEXQuote) (r : ℚ) :
    (handleCycle now (.fulfilled s) (.fulfilled cq) (.fulfilled r)).1.premium =
      some ⟨roundTo 4 (roundTo 4 (s.latest / (TROY_OZ_PER_KG * r)) - cq.price),
            roundTo 2 ((roundTo 4 (s.latest / (TROY_OZ_PER_KG * r)) - cq.price)
              / cq.price * 100)⟩ := rfl

lemma handleCycle_premium_isSome (now : String) (s : Settled SGEQuote)
    (c : Settled COMEXQuote) (f : Settled ℚ) :
    ((handleCycle now s c f).1.premium).isSome =
      (s.isFulfilled && c.isFulfilled && f.isFulfilled) := by
  cases s <;> cases c <;> cases f <;> rfl

lemma handleCycle_errors (now : String) (s : Settled SGEQuote)
    (c : Settled COMEXQuote) (f : Settled ℚ) :
    (handleCycle now s c f).1.errors = comexErrList c ++ fxErrList f ++ sgeErrList s f := by
  cases s <;> cases c <;> cases f <;> rfl

lemma handleCycle_status_eq (now : String) (s : Settled SGEQuote)
    (c : Settled COMEXQuote) (f : Settled ℚ) :
    (handleCycle now s c f).2 =
      (if c.isFulfilled || (s.isFulfilled && f.isFulfilled) then 200 else 502) := by
  cases s <;> cases c <;> cases f <;> rfl

/-! ## Helper lemmas: the SGE row scan -/

/-- A row that both matches the `Ag(T+D)` filter and passes the
`latest && latest > 0` guard. -/
def validRow (row : SGERow) : Bool :=
  rowMatches row && latestGuard row.latest

lemma scanStep_eq (acc : Option SGEQuote) (row : SGERow) :
    scanStep acc row = if validRow row then some (rowQuote row) else acc := by
  unfold scanStep validRow
  cases h1 : rowMatches row <;> cases h2 : latestGuard row.latest <;> simp [h1, h2]

lemma foldl_scanStep (rows : List SGERow) (acc : Option SGEQuote) :
    rows.foldl scanStep acc =
      (match rows.reverse.find? validRow with
       | some r => some (rowQuote r)
       | none => acc) := by
  induction rows using List.reverseRecOn generalizing acc with
  | nil => rfl
  | append_singleton l r ih =>
    rw [List.foldl_append, List.foldl_cons, List.foldl_nil, List.reverse_append]
    simp only [List.reverse_singleton, List.singleton_append, List.find?_cons]
    cases h : validRow r with
    | true => simp [scanStep_eq, h]
    | false => simp [scanStep_eq, h, ih]

lemma scanRows_eq_findLast (rows : List SGERow) :
    scanRows rows = (rows.reverse.find? validRow).map rowQuote := by
  rw [scanRows, foldl_scanStep]
  cases rows.reverse.find? validRow <;> rfl

lemma latestGuard_toQ_pos (j : JSNum) (h : latestGuard j = true) : 0 < j.toQ := by
  cases j with
  | nan => simp [latestGuard] at h
  | num v =>
    simp only [latestGuard, Bool.and_eq_true, decide_eq_true_eq] at h
    simpa [JSNum.toQ] using h.2

lemma scanRows_latest_pos (rows : List SGERow) (q : SGEQuote)
    (h : scanRows rows = some q) : 0 < q.latest := by
  rw [scanRows_eq_findLast] at h
  cases hf : rows.reverse.find? validRow with
  | none => rw [hf] at h; simp at h
  | some r =>
    rw [hf] at h
    have hv : validRow r = true := List.find?_some hf
    have hg : latestGuard r.latest = true := by
      have := hv
      unfold validRow at this
      exact (Bool.and_eq_true _ _).mp this |>.2
    simp only [Option.map_some'] at h
    have hq : q = rowQuote r := by exact (Option.some.inj h).symm
    subst hq
    exact latestGuard_toQ_pos _ hg

lemma scanRows_none_of_all_invalid (rows : List SGERow)
    (h : ∀ row ∈ rows, validRow row = false) : scanRows rows = none := by
  rw [scanRows_eq_findLast]
  have : rows.reverse.find? validRow = none := by
    rw [List.find?_eq_none]
    intro r hr
    simp only [List.mem_reverse] at hr
    simp [h r hr]
  rw [this]
  rfl

/-! ## Claim theorems -/

/-- C1 (corrected): the assembler consumes all three settled outcomes, and
a COMEX success and an FX success always appear in the composite result no
matter how the other adapters fared; but an SGE success only appears when
the FX outcome was also fulfilled (an FX failure suppresses the SGE data,
leaving only a dependency error). -/
theorem aggregator_isolation (now : String) (s : Settled SGEQuote)
    (c : Settled COMEXQuote) (f : Settled ℚ) :
    (∀ cv, c = .fulfilled cv → (handleCycle now s c f).1.comex = some cv) ∧
    (∀ fv, f = .fulfilled fv → (handleCycle now s c f).1.fx = some ⟨fv⟩) ∧
    (∀ sv fv, s = .fulfilled sv → f = .fulfilled fv →
      ((handleCycle now s c f).1.sge).isSome = true) := by
  refine ⟨?_, ?_, ?_⟩
  · intro cv hc
    subst hc
    rw [handleCycle_comex]
  · intro fv hf
    subst hf
    rw [handleCycle_fx]
  · intro sv fv hs hf
    subst hs
    subst hf
    rw [handleCycle_sge_ff]
    rfl

/-- Witness for C1 at a concrete all-fulfilled cycle. -/
theorem aggregator_isolation_witness :
    (handleCycle "2026-01-01T00:00:00.000Z" (.fulfilled ⟨9000, .num 9100, .num 8900, none⟩)
      (.fulfilled ⟨43, none, none, none, "d"⟩) (.fulfilled 7)).1.comex =
        some ⟨43, none, none, none, "d"⟩ ∧
    (handleCycle "2026-01-01T00:00:00.000Z" (.fulfilled ⟨9000, .num 9100, .num 8900, none⟩)
      (.fulfilled ⟨43, none, none, none, "d"⟩) (.fulfilled 7)).1.fx = some ⟨7⟩ ∧
    ((handleCycle "2026-01-01T00:00:00.000Z" (.fulfilled ⟨9000, .num 9100, .num 8900, none⟩)
      (.fulfilled ⟨43, none, none, none, "d"⟩) (.fulfilled 7)).1.sge).isSome = true := by
  refine ⟨?_, ?_, ?_⟩
  · exact (aggregator_isolation _ _ _ _).1 _ rfl
  · exact (aggregator_isolation _ _ _ _).2.1 _ rfl
  · exact (aggregator_isolation _ _ _ _).2.2 _ _ rfl rfl

/-- C1 counterexample: SGE and COMEX both succeed, FX alone fails, yet the
SGE success does not appear in the composite result (`sge` is null), so a
single adapter failure does suppress another adapter's success. -/
theorem aggregator_isolation_cex :
    (handleCycle "2026-01-01T00:00:00.000Z" (.fulfilled ⟨9000, .num 9100, .num 8900, none⟩)
      (.fulfilled ⟨43, none, none, none, "d"⟩) (.rejected (some "FX HTTP 500"))).1.sge = none ∧
    ((handleCycle "2026-01-01T00:00:00.000Z" (.fulfilled ⟨9000, .num 9100, .num 8900, none⟩)
      (.fulfilled ⟨43, none, none, none, "d"⟩)
      (.rejected (some "FX HTTP 500"))).1.comex).isSome = true :=
  ⟨rfl, rfl⟩

/-- C2 (corrected): with a fulfilled SGE quote of raw price `p` and a
fulfilled FX rate `r`, the assembler sets
`usd_per_oz = roundTo 4 (p / (TROY_OZ_PER_KG * r))` with
`TROY_OZ_PER_KG = 32.1507465686`; at `p = 9875`, `r = 7.15` this evaluates
to `42.9576` (not `42.9603` as the spec example says). -/
theorem aggregator_normalized_price (now : String) (c : Settled COMEXQuote)
    (s : SGEQuote) (r : ℚ) :
    (handleCycle now (.fulfilled s) c (.fulfilled r)).1.sge =
      some ⟨roundTo 4 (s.latest / (TROY_OZ_PER_KG * r)), s.latest, s.high, s.low, s.openV⟩ ∧
    TROY_OZ_PER_KG = 321507465686 / 10 ^ 10 ∧
    roundTo 4 (9875 / (TROY_OZ_PER_KG * (715 / 100))) = 429576 / 10000 := by
  refine ⟨handleCycle_sge_ff now s c r, rfl, ?_⟩
  norm_num [roundTo, TROY_OZ_PER_KG]

/-- C2 counterexample: at raw price 9875 and FX rate 7.15 the assembler
produces a normalized price of 42.9576, and 42.9576 ≠ 42.9603. -/
theorem aggregator_normalized_price_cex :
    (handleCycle "2026-01-01T00:00:00.000Z" (.fulfilled ⟨9875, .nan, .nan, none⟩)
      (.rejected none) (.fulfilled (715 / 100))).1.sge =
      some ⟨429576 / 10000, 9875, .nan, .nan, none⟩ ∧
    (429576 / 10000 : ℚ) ≠ 429603 / 10000 := by
  constructor
  · rw [handleCycle_sge_ff]
    simp only [Option.some.injEq, SGEOut.mk.injEq, and_true]
    norm_num [roundTo, TROY_OZ_PER_KG]
  · norm_num

/-- C3 (confirmed): the composite `sge` field is populated iff the SGE
adapter succeeded and the FX rate is present; when the SGE adapter
succeeded but FX failed, `sge` stays null and the error list holds an
entry for source `sge` with message "Cannot convert without FX rate". -/
theorem aggregator_local_presence (now : String) (s : Settled SGEQuote)
    (c : Settled COMEXQuote) (f : Settled ℚ) :
    (((handleCycle now s c f).1.sge).isSome = true ↔
      s.isFulfilled = true ∧ ((handleCycle now s c f).1.fx).isSome = true) ∧
    (s.isFulfilled = true → f.isFulfilled = false →
      (handleCycle now s c f).1.sge = none ∧
      ErrorEntry.mk "sge" "Cannot convert without FX rate" ∈
        (handleCycle now s c f).1.errors) := by
  cases s <;> cases c <;> cases f <;>
    simp [handleCycle_sge_ff, handleCycle_sge_rejected, handleCycle_sge_noFx,
      handleCycle_fx, handleCycle_errors, Settled.isFulfilled,
      comexErrList, fxErrList, sgeErrList]

/-- Witness for C3: SGE fulfilled, FX rejected. -/
theorem aggregator_local_presence_witness :
    (handleCycle "2026-01-01T00:00:00.000Z" (.fulfilled ⟨9000, .nan, .nan, none⟩)
      (.rejected none) (.rejected none)).1.sge = none ∧
    ErrorEntry.mk "sge" "Cannot convert without FX rate" ∈
      (handleCycle "2026-01-01T00:00:00.000Z" (.fulfilled ⟨9000, .nan, .nan, none⟩)
        (.rejected none) (.rejected none)).1.errors :=
  (aggregator_local_presence "2026-01-01T00:00:00.000Z"
    (.fulfilled ⟨9000, .nan, .nan, none⟩) (.rejected none) (.rejected none)).2 rfl rfl

/-- C4 (confirmed): `premium` is populated iff both `sge` and `comex` are
populated, and then `premium.usd` is the 4-decimal rounding of
`usd_per_oz - price` and `premium.percent` the 2-decimal rounding of
`(usd_per_oz - price) / price * 100`. -/
theorem aggregator_premium (now : String) (s : Settled SGEQuote)
    (c : Settled COMEXQuote) (f : Settled ℚ) :
    (((handleCycle now s c f).1.premium).isSome = true ↔
      ((handleCycle now s c f).1.sge).isSome = true ∧
      ((handleCycle now s c f).1.comex).isSome = true) ∧
    (∀ so cq, (handleCycle now s c f).1.sge = some so →
      (handleCycle now s c f).1.comex = some cq →
      (handleCycle now s c f).1.premium =
        some ⟨roundTo 4 (so.usd_per_oz - cq.price),
              roundTo 2 ((so.usd_per_oz - cq.price) / cq.price * 100)⟩) := by
  cases s with
  | rejected rs =>
    refine ⟨?_, ?_⟩
    · simp [handleCycle_premium_isSome, handleCycle_sge_rejected, Settled.isFulfilled]
    · intro so cq hso hcq
      rw [handleCycle_sge_rejected] at hso
      cases hso
  | fulfilled sq =>
    cases f with
    | rejected rf =>
      refine ⟨?_, ?_⟩
      · simp [handleCycle_premium_isSome, handleCycle_sge_noFx, Settled.isFulfilled]
      · intro so cq hso hcq
        rw [handleCycle_sge_noFx] at hso
        cases hso
    | fulfilled r =>
      cases c with
      | rejected rc =>
        refine ⟨?_, ?_⟩
        · simp [handleCycle_premium_isSome, handleCycle_sge_ff, handleCycle_comex,
            Settled.isFulfilled]
        · intro so cq hso hcq
          rw [handleCycle_comex] at hcq
          cases hcq
      | fulfilled cq0 =>
        refine ⟨?_, ?_⟩
        · simp [handleCycle_premium_isSome, handleCycle_sge_ff, handleCycle_comex,
            Settled.isFulfilled]
        · intro so cq hso hcq
          rw [handleCycle_sge_ff] at hso
          rw [handleCycle_comex] at hcq
          have h1 := Option.some.inj hso
          have h2 := Option.some.inj hcq
          subst h1
          subst h2
          rw [handleCycle_premium_ff]

/-- Witness for C4 at raw price 9875, FX rate 7.15, reference 43.5:
premium is (−0.5424, −1.25). -/
theorem aggregator_premium_witness :
    (handleCycle "2026-01-01T00:00:00.000Z" (.fulfilled ⟨9875, .nan, .nan, none⟩)
      (.fulfilled ⟨435 / 10, none, none, none, "d"⟩) (.fulfilled (715 / 100))).1.premium =
      some ⟨-5424 / 10000, -125 / 100⟩ := by
  have h := (aggregator_premium "2026-01-01T00:00:00.000Z"
      (.fulfilled ⟨9875, .nan, .nan, none⟩)
      (.fulfilled ⟨435 / 10, none, none, none, "d"⟩) (.fulfilled (715 / 100))).2
    ⟨429576 / 10000, 9875, .nan, .nan, none⟩ ⟨435 / 10, none, none, none, "d"⟩
    (by
      rw [handleCycle_sge_ff]
      simp only [Option.some.injEq, SGEOut.mk.injEq, and_true]
      norm_num [roundTo, TROY_OZ_PER_KG])
    (by rw [handleCycle_comex])
  rw [h]
  simp only [Option.some.injEq, PremiumOut.mk.injEq]
  constructor <;> norm_num [roundTo]

/-- C5 (confirmed): the HTTP status is 502 iff both `comex` and `sge` are
absent from the composite result, and a cycle in which all three adapters
were rejected carries exactly three error entries. -/
theorem aggregator_status (now : String) (s : Settled SGEQuote)
    (c : Settled COMEXQuote) (f : Settled ℚ) :
    ((handleCycle now s c f).2 = 502 ↔
      (handleCycle now s c f).1.comex = none ∧ (handleCycle now s c f).1.sge = none) ∧
    (∀ rs rc rf, s = .rejected rs → c = .rejected rc → f = .rejected rf →
      ((handleCycle now s c f).1.errors).length = 3) := by
  cases s <;> cases c <;> cases f <;>
    refine ⟨by simp [handleCycle_status_eq, handleCycle_comex, handleCycle_sge_ff,
        handleCycle_sge_rejected, handleCycle_sge_noFx, Settled.isFulfilled],
      by intro rs rc rf hs hc hf
         simp_all [handleCycle_errors, comexErrList, fxErrList, sgeErrList]⟩

/-- Witness for C5: all three outcomes rejected gives three errors. -/
theorem aggregator_status_witness :
    ((handleCycle "2026-01-01T00:00:00.000Z" (.rejected (some "SGE HTTP 500"))
      (.rejected (some "COMEX HTTP 500"))
      (.rejected (some "FX HTTP 500"))).1.errors).length = 3 :=
  (aggregator_status "2026-01-01T00:00:00.000Z" _ _ _).2
    (some "SGE HTTP 500") (some "COMEX HTTP 500") (some "FX HTTP 500") rfl rfl rfl

/-- C6 (confirmed): the aggregator's SGE adapter never returns a quote
with a non-positive latest price, and when every matching row's parsed
latest value is NaN or non-positive it fails with the
"Ag(T+D) not found or market closed" error. -/
theorem fetchSGE_rejects_nonpositive (resp : SGEResponse) :
    (∀ q, fetchSGE resp = .ok q → 0 < q.latest) ∧
    (resp.ok = true →
      (∀ row ∈ resp.rows, rowMatches row = true →
        row.latest = .nan ∨ ∃ v, row.latest = .num v ∧ v ≤ 0) →
      fetchSGE resp = .err "Ag(T+D) not found or market closed") := by
  constructor
  · intro q hq
    unfold fetchSGE at hq
    cases ho : resp.ok with
    | false => simp [ho] at hq
    | true =>
      rw [ho] at hq
      simp only [Bool.not_true, Bool.false_eq_true, if_false] at hq
      cases hs : scanRows resp.rows with
      | none => rw [hs] at hq; cases hq
      | some q0 =>
        rw [hs] at hq
        have : q0 = q := by
          have := hq
          simp only [FetchOutcome.ok.injEq] at this
          exact this
        subst this
        exact scanRows_latest_pos _ _ hs
  · intro ho hall
    have hnone : scanRows resp.rows = none := by
      apply scanRows_none_of_all_invalid
      intro row hr
      unfold validRow
      cases hm : rowMatches row with
      | false => simp
      | true =>
        rcases hall row hr hm with hnan | ⟨v, hv, hle⟩
        · simp [hnan, latestGuard]
        · have hd : decide (0 < v) = false := decide_eq_false (not_lt.mpr hle)
          simp [hv, latestGuard, hd]
    unfold fetchSGE
    simp [ho, hnone]

/-- Witness for C6: a single matching row with latest price 0 makes the
adapter fail with the market-closed error. -/
theorem fetchSGE_rejects_nonpositive_witness :
    fetchSGE ⟨true, 200, [⟨4, "Ag(T+D)", .num 0, .nan, .nan, .nan⟩]⟩ =
      .err "Ag(T+D) not found or market closed" :=
  (fetchSGE_rejects_nonpositive ⟨true, 200, [⟨4, "Ag(T+D)", .num 0, .nan, .nan, .nan⟩]⟩).2
    rfl
    (by
      intro row hr hm
      simp only [List.mem_singleton] at hr
      subst hr
      exact Or.inr ⟨0, rfl, le_refl 0⟩)

/-- C7 (corrected): the error entries are pushed in the order COMEX
(reference) first, then FX, then SGE (local) — not FX before reference as
the claim states.  When sources fail, any comex entry precedes any fx
entry, which precedes any sge entry. -/
theorem aggregator_error_order (now : String) (s : Settled SGEQuote)
    (c : Settled COMEXQuote) (f : Settled ℚ) :
    ((handleCycle now s c f).1.errors).map ErrorEntry.source =
      (if c.isFulfilled then [] else ["comex"]) ++
      (if f.isFulfilled then [] else ["fx"]) ++
      (if s.isFulfilled && f.isFulfilled then [] else ["sge"]) := by
  cases s <;> cases c <;> cases f <;> rfl

/-- C7 counterexample: with all three adapters rejected, the error list
is [comex, fx, sge] — the comex (reference) entry is at index 0 and the
fx entry at index 1, so the fx entry does not precede the reference
entry. -/
theorem aggregator_error_order_cex :
    (((handleCycle "2026-01-01T00:00:00.000Z" (.rejected (some "SGE HTTP 500"))
      (.rejected (some "COMEX HTTP 500")) (.rejected (some "FX HTTP 500"))).1.errors).map
        ErrorEntry.source) = ["comex", "fx", "sge"] ∧
    ((((handleCycle "2026-01-01T00:00:00.000Z" (.rejected (some "SGE HTTP 500"))
      (.rejected (some "COMEX HTTP 500")) (.rejected (some "FX HTTP 500"))).1.errors).map
        ErrorEntry.source).indexOf "comex" = 0) ∧
    ((((handleCycle "2026-01-01T00:00:00.000Z" (.rejected (some "SGE HTTP 500"))
      (.rejected (some "COMEX HTTP 500")) (.rejected (some "FX HTTP 500"))).1.errors).map
        ErrorEntry.source).indexOf "fx" = 1) := by
  refine ⟨rfl, ?_, ?_⟩ <;> rfl

/-- C8 (corrected): on an ok response the FX adapter fails with
"CNY rate not found" exactly when the `CNY` field is absent **or falsy**
(NaN or 0), and any other numeric value — including a negative one — is
returned unchanged.  Returned rates are therefore nonzero but not
guaranteed positive. -/
theorem fetchFX_truthy_gate (resp : FXResponse) (h : resp.ok = true) :
    (fetchFX resp = .err "CNY rate not found" ↔
      resp.ratesCNY = none ∨ resp.ratesCNY = some .nan ∨
        resp.ratesCNY = some (.num 0)) ∧
    (∀ v, fetchFX resp = .ok v → v ≠ 0 ∧ resp.ratesCNY = some (.num v)) := by
  cases hr : resp.ratesCNY with
  | none => simp [fetchFX, h, hr]
  | some j =>
    cases j with
    | nan => simp [fetchFX, h, hr]
    | num v =>
      by_cases hv : v = 0
      · subst hv
        simp [fetchFX, h, hr]
      · refine ⟨by simp [fetchFX, h, hr, hv], ?_⟩
        intro w hw
        simp only [fetchFX, h, Bool.not_true, Bool.false_eq_true, if_false, hr,
          if_neg hv, FetchOutcome.ok.injEq] at hw
        subst hw
        exact ⟨hv, rfl⟩

/-- Witness for C8 at rate 7.15. -/
theorem fetchFX_truthy_gate_witness :
    (715 / 100 : ℚ) ≠ 0 ∧
    FXResponse.ratesCNY ⟨true, 200, some (.num (715 / 100))⟩ =
      some (.num (715 / 100)) :=
  (fetchFX_truthy_gate ⟨true, 200, some (.num (715 / 100))⟩ rfl).2 (715 / 100)
    (by norm_num [fetchFX])

/-- C8 counterexample: a negative CNY value is truthy and is returned
as-is (violating positivity), while a present-but-zero CNY field is
rejected with "CNY rate not found" (so failure is not exactly "field
absent"). -/
theorem fetchFX_positive_cex :
    fetchFX ⟨true, 200, some (.num (-71 / 10))⟩ = .ok (-71 / 10) ∧
    ¬(0 < (-71 / 10 : ℚ)) ∧
    fetchFX ⟨true, 200, some (.num 0)⟩ = .err "CNY rate not found" := by
  refine ⟨by norm_num [fetchFX], by norm_num, by norm_num [fetchFX]⟩

/-- C9 (confirmed): the standalone shanghai endpoint runs sequentially in
one try/catch: each single upstream failure (SGE non-ok status, missing
or falsy Ag(T+D) latest price, FX non-ok status, missing or falsy CNY
rate) yields a 500 response whose body is the error-only payload, and on
the two SGE failures the FX request is never issued; only when nothing
fails does it answer 200 with price data. -/
theorem shanghai_fail_fast (method now : String) (sgeResp : SGEResponse)
    (fxResp : FXResponseS) (hm : method ≠ "OPTIONS") :
    (sgeResp.ok = false →
      (shanghaiHandler method now sgeResp fxResp).1.1 = 500 ∧
      ((shanghaiHandler method now sgeResp fxResp).1.2).isErrorOnly = true ∧
      (shanghaiHandler method now sgeResp fxResp).2 = [.sgeFetch]) ∧
    (sgeResp.ok = true → agLatestOk (scanRowsShanghai sgeResp.rows) = false →
      (shanghaiHandler method now sgeResp fxResp).1.1 = 500 ∧
      ((shanghaiHandler method now sgeResp fxResp).1.2).isErrorOnly = true ∧
      (shanghaiHandler method now sgeResp fxResp).2 = [.sgeFetch]) ∧
    (sgeResp.ok = true → agLatestOk (scanRowsShanghai sgeResp.rows) = true →
      fxResp.ok = false →
      (shanghaiHandler method now sgeResp fxResp).1.1 = 500 ∧
      ((shanghaiHandler method now sgeResp fxResp).1.2).isErrorOnly = true ∧
      (shanghaiHandler method now sgeResp fxResp).2 = [.sgeFetch, .fxFetch]) ∧
    (sgeResp.ok = true → agLatestOk (scanRowsShanghai sgeResp.rows) = true →
      fxResp.ok = true → fxResp.cnyFalsy = true →
      (shanghaiHandler method now sgeResp fxResp).1.1 = 500 ∧
      ((shanghaiHandler method now sgeResp fxResp).1.2).isErrorOnly = true ∧
      (shanghaiHandler method now sgeResp fxResp).2 = [.sgeFetch, .fxFetch]) ∧
    (sgeResp.ok = true → agLatestOk (scanRowsShanghai sgeResp.rows) = true →
      fxResp.ok = true → fxResp.cnyFalsy = false →
      (shanghaiHandler method now sgeResp fxResp).1.1 = 200 ∧
      ((shanghaiHandler method now sgeResp fxResp).1.2).isErrorOnly = false) := by
  refine ⟨?_, ?_, ?_, ?_, ?_⟩
  · intro h
    simp [shanghaiHandler, hm, h, ShanghaiBody.isErrorOnly]
  · intro h1 h2
    cases hv : scanRowsShanghai sgeResp.rows with
    | none => simp [shanghaiHandler, hm, h1, hv, ShanghaiBody.isErrorOnly]
    | some vs =>
      rw [hv] at h2
      simp only [agLatestOk] at h2
      simp [shanghaiHandler, hm, h1, hv, h2, ShanghaiBody.isErrorOnly]
  · intro h1 h2 h3
    cases hv : scanRowsShanghai sgeResp.rows with
    | none => rw [hv] at h2; simp [agLatestOk] at h2
    | some vs =>
      rw [hv] at h2
      simp only [agLatestOk] at h2
      simp [shanghaiHandler, hm, h1, hv, h2, h3, ShanghaiBody.isErrorOnly]
  · intro h1 h2 h3 h4
    cases hv : scanRowsShanghai sgeResp.rows with
    | none => rw [hv] at h2; simp [agLatestOk] at h2
    | some vs =>
      rw [hv] at h2
      simp only [agLatestOk] at h2
      cases hr : fxResp.rates with
      | none => simp [shanghaiHandler, hm, h1, hv, h2, h3, hr, ShanghaiBody.isErrorOnly]
      | some rates =>
        cases hc : rates.CNY with
        | none => simp [shanghaiHandler, hm, h1, hv, h2, h3, hr, hc, ShanghaiBody.isErrorOnly]
        | some j =>
          cases j with
          | nan => simp [shanghaiHandler, hm, h1, hv, h2, h3, hr, hc, ShanghaiBody.isErrorOnly]
          | num v =>
            simp only [FXResponseS.cnyFalsy, hr, hc, beq_iff_eq] at h4
            simp [shanghaiHandler, hm, h1, hv, h2, h3, hr, hc, h4,
              ShanghaiBody.isErrorOnly]
  · intro h1 h2 h3 h4
    cases hv : scanRowsShanghai sgeResp.rows with
    | none => rw [hv] at h2; simp [agLatestOk] at h2
    | some vs =>
      rw [hv] at h2
      simp only [agLatestOk] at h2
      cases hr : fxResp.rates with
      | none => simp [FXResponseS.cnyFalsy, hr] at h4
      | some rates =>
        cases hc : rates.CNY with
        | none => simp [FXResponseS.cnyFalsy, hr, hc] at h4
        | some j =>
          cases j with
          | nan => simp [FXResponseS.cnyFalsy, hr, hc] at h4
          | num v =>
            simp only [FXResponseS.cnyFalsy, hr, hc, beq_eq_false_iff_ne, ne_eq] at h4
            simp [shanghaiHandler, hm, h1, hv, h2, h3, hr, hc, h4,
              ShanghaiBody.isErrorOnly]

/-- Witness for C9: a 503 from SGE yields a 500 error-only response and
the FX request is never issued. -/
theorem shanghai_fail_fast_witness :
    (shanghaiHandler "GET" "2026-01-01T00:00:00.000Z" ⟨false, 503, []⟩
      ⟨true, 200, some ⟨some (.num 7)⟩⟩).1.1 = 500 ∧
    ((shanghaiHandler "GET" "2026-01-01T00:00:00.000Z" ⟨false, 503, []⟩
      ⟨true, 200, some ⟨some (.num 7)⟩⟩).1.2).isErrorOnly = true ∧
    (shanghaiHandler "GET" "2026-01-01T00:00:00.000Z" ⟨false, 503, []⟩
      ⟨true, 200, some ⟨some (.num 7)⟩⟩).2 = [.sgeFetch] :=
  (shanghai_fail_fast "GET" "2026-01-01T00:00:00.000Z" ⟨false, 503, []⟩
    ⟨true, 200, some ⟨some (.num 7)⟩⟩ (by decide)).1 rfl

/-- C10 (confirmed): the aggregator's row scan keeps the quote of the
**last** row that matches `Ag(T+D)` (with ≥ 4 cells) and whose parsed
latest value is a positive number; appending a matching row whose latest
value is zero or NaN does not overwrite an earlier valid result. -/
theorem scanRows_last_valid (rows : List SGERow) :
    scanRows rows = (rows.reverse.find? validRow).map rowQuote ∧
    (∀ row, validRow row = false → scanRows (rows ++ [row]) = scanRows rows) := by
  refine ⟨scanRows_eq_findLast rows, ?_⟩
  intro row h
  rw [scanRows_eq_findLast, scanRows_eq_findLast, List.reverse_append]
  simp [List.find?_cons, h]

/-- Witness for C10: a valid 7000-price row followed by a zero-price row
yields the same quote as the valid row alone. -/
theorem scanRows_last_valid_witness :
    scanRows [⟨4, "Ag(T+D)", .num 7000, .nan, .nan, .nan⟩,
              ⟨4, "Ag(T+D)", .num 0, .nan, .nan, .nan⟩] =
      scanRows [⟨4, "Ag(T+D)", .num 7000, .nan, .nan, .nan⟩] :=
  (scanRows_last_valid [⟨4, "Ag(T+D)", .num 7000, .nan, .nan, .nan⟩]).2
    ⟨4, "Ag(T+D)", .num 0, .nan, .nan, .nan⟩
    (by simp [validRow, latestGuard])

end SilverPrices
